import Mathlib

/-!
Shallow embedding of `src/http.rs` of the `reqwasm` crate: a builder-style
wrapper around the browser's fetch API.  The host browsing environment
(window lookup, descriptor construction, fetch outcome, body-decode
promises) is modelled as explicit data passed to the operations; `Rust`
panics (`unwrap` / `expect`) are modelled with the `PanicOr` result type.
-/

set_option autoImplicit false

namespace Reqwasm

/-- Valid request methods (http.rs lines 14-21). -/
inductive Method where
  | GET
  | POST
  | PATCH
  | DELETE
  | PUT
deriving DecidableEq, Repr

/-- The `fmt::Display` implementation for `Method` (http.rs lines 23-34):
each variant prints as its uppercase name. -/
def Method.toString : Method → String
  | .GET => "GET"
  | .POST => "POST"
  | .PATCH => "PATCH"
  | .DELETE => "DELETE"
  | .PUT => "PUT"

/-- Host enum `web_sys::RequestCache` (opaque pass-through option). -/
inductive RequestCache where
  | default
  | noStore
  | reload
  | noCache
  | forceCache
  | onlyIfCached
deriving DecidableEq, Repr

/-- Host enum `web_sys::RequestCredentials` (opaque pass-through option). -/
inductive RequestCredentials where
  | omit
  | sameOrigin
  | include
deriving DecidableEq, Repr

/-- Host enum `web_sys::RequestMode` (opaque pass-through option). -/
inductive RequestMode where
  | sameOrigin
  | noCors
  | cors
  | navigate
deriving DecidableEq, Repr

/-- Host enum `web_sys::RequestRedirect` (opaque pass-through option). -/
inductive RequestRedirect where
  | follow
  | error
  | manual
deriving DecidableEq, Repr

/-- Host enum `web_sys::ReferrerPolicy` (opaque pass-through option). -/
inductive ReferrerPolicy where
  | none
  | noReferrer
  | noReferrerWhenDowngrade
  | origin
  | originWhenCrossOrigin
  | unsafeUrl
  | sameOrigin
  | strictOrigin
  | strictOriginWhenCrossOrigin
deriving DecidableEq, Repr

/-- Host object `web_sys::AbortSignal`, opaque to this layer. -/
structure AbortSignal where
  id : Nat
deriving DecidableEq, Repr

/-- Host object `web_sys::ObserverCallback`, opaque to this layer. -/
structure ObserverCallback where
  id : Nat
deriving DecidableEq, Repr

/-- Host object `web_sys::ReadableStream`, opaque to this layer. -/
structure ReadableStream where
  id : Nat
deriving DecidableEq, Repr

/-- Host object `web_sys::Window`, opaque to this layer. -/
structure Window where
  id : Nat
deriving DecidableEq, Repr

/-- Host double for a valid HTTP header-name character (a token character,
per the Fetch standard enforced by `web_sys::Headers`). Codes 39 and 96 are
the apostrophe and the grave accent, both token characters. -/
def validHeaderNameChar (c : Char) : Bool :=
  c.isAlphanum || ['!', '#', '$', '%', '&', '*', '+', '-', '.',
    '^', '_', '|', '~'].contains c || c.toNat == 39 || c.toNat == 96

/-- Host double for a valid HTTP header-value character (no NUL, CR, LF,
per the Fetch standard enforced by `web_sys::Headers`). -/
def validHeaderValueChar (c : Char) : Bool :=
  c.toNat != 0 && c != '\r' && c != '\n'

/-- Host double: `web_sys::Headers` accepts a header name iff it is a
nonempty token. -/
def validHeaderName (s : String) : Bool :=
  !s.data.isEmpty && s.data.all validHeaderNameChar

/-- Host double: `web_sys::Headers` accepts a header value iff it has no
forbidden character. -/
def validHeaderValue (s : String) : Bool :=
  s.data.all validHeaderValueChar

/-- Lower-case a string character by character (header names are matched
case-insensitively by the host; the double normalizes them to lower case). -/
def lowerStr (s : String) : String :=
  ⟨s.data.map Char.toLower⟩

/-- Remove every entry with the given (already lower-cased) key. -/
def headerRemove (key : String) : List (String × String) → List (String × String)
  | [] => []
  | e :: es => if e.1 = key then headerRemove key es else e :: headerRemove key es

/-- Find the value stored under the given (already lower-cased) key. -/
def headerFind? (key : String) : List (String × String) → Option String
  | [] => Option.none
  | e :: es => if e.1 = key then Option.some e.2 else headerFind? key es

/-- Host object `web_sys::Headers`: a case-insensitive key-value
collection. The double stores keys lower-cased. -/
structure Headers where
  entries : List (String × String)
deriving DecidableEq, Repr

/-- Host constructor `web_sys::Headers::new()`: the empty collection.
With no init argument the host constructor never throws, so the
`.expect("headers")` in `Request::new` (http.rs line 48) never fires and
the double is total. -/
def Headers.new : Headers := ⟨[]⟩

/-- Host operation `Headers::set(key, value)`: rejects an invalid name or
value with a host error value; otherwise overwrites any entry with the
same name (case-insensitively) with the new value. -/
def Headers.set (hs : Headers) (key value : String) : Except String Headers :=
  if validHeaderName key && validHeaderValue value then
    Except.ok ⟨headerRemove (lowerStr key) hs.entries ++ [(lowerStr key, value)]⟩
  else
    Except.error "TypeError"

/-- Host operation `Headers::get(key)`: case-insensitive lookup. -/
def Headers.get (hs : Headers) (key : String) : Option String :=
  headerFind? (lowerStr key) hs.entries

/-- Host response object `web_sys::Response`: the metadata the wrapper's
synchronous accessors project out. -/
structure WebResponse where
  url : String
  redirected : Bool
  status : Nat
  statusText : String
  headers : Headers
  bodyUsed : Bool
  body : Option ReadableStream
deriving DecidableEq, Repr

/-- Host accessor `web_sys::Response::ok()`: per the Fetch standard the
host reports ok iff the status is in the range 200..=299. -/
def WebResponse.ok (r : WebResponse) : Bool :=
  decide (200 ≤ r.status) && decide (r.status ≤ 299)

/-- Dynamically-typed host value (`wasm_bindgen::JsValue`): a string, a
number, a host response object, or some other opaque host object.
`dyn_into::<web_sys::Response>()` succeeds exactly on `jsResponse`. -/
inductive JsValue where
  | str : String → JsValue
  | num : Int → JsValue
  | jsResponse : WebResponse → JsValue
  | objVal : Nat → JsValue
deriving DecidableEq, Repr

/-- Host conversion `js_sys::JsString::from(v)` followed by
`String::from(&s)` (http.rs lines 238-239): JavaScript String() coercion. -/
def jsStringFrom : JsValue → String
  | .str s => s
  | .num n => ToString.toString n
  | .jsResponse _ => "[object Response]"
  | .objVal _ => "[object Object]"

/-- Host object `web_sys::FormData`, built from a host value by
`FormData::from(val)` (http.rs line 223). -/
structure FormData where
  raw : JsValue
deriving DecidableEq, Repr

/-- Conversion `FormData::from` (the `From<JsValue>` impl on the host). -/
def FormData.fromJs (v : JsValue) : FormData := ⟨v⟩

/-- Modelled from the spec: the crate's unified error type (declared at the
crate root, outside src/): host-originated failures converted from the
host's native error representation (`jsError`), deserialization mismatches
(`serdeError`, the `From` conversion used by the `?` on `into_serde`), and
this layer's other failures (`other`, via `anyhow`, used for the
unexpected-type case in `send`). -/
inductive Error where
  | jsError : JsValue → Error
  | serdeError : String → Error
  | other : String → Error
deriving DecidableEq, Repr

/-- Modelled from the spec: the crate root's `js_to_error` helper (outside
src/), which converts a host error value losslessly into the unified error
type as an opaque host failure. -/
def js_to_error (v : JsValue) : Error := Error.jsError v

/-- Result of a Rust computation that may panic (`unwrap` / `expect`):
either a value or a process abort carrying the panic message. -/
inductive PanicOr (α : Type) where
  | ok : α → PanicOr α
  | panicked : String → PanicOr α
deriving DecidableEq, Repr

/-- Apply a function under `PanicOr` (sequencing after a possibly-aborting
step). -/
def PanicOr.map {α β : Type} (f : α → β) : PanicOr α → PanicOr β
  | .ok a => .ok (f a)
  | .panicked m => .panicked m

/-- Host options aggregate `web_sys::RequestInit`: every field unset until
configured by a builder call. -/
structure RequestInit where
  method : Option String := Option.none
  headers : Option Headers := Option.none
  body : Option JsValue := Option.none
  cache : Option RequestCache := Option.none
  credentials : Option RequestCredentials := Option.none
  integrity : Option String := Option.none
  mode : Option RequestMode := Option.none
  observe : Option ObserverCallback := Option.none
  redirect : Option RequestRedirect := Option.none
  referrer : Option String := Option.none
  referrerPolicy : Option ReferrerPolicy := Option.none
  signal : Option (Option AbortSignal) := Option.none
deriving DecidableEq, Repr

/-- Host constructor `web_sys::RequestInit::new()`: all options unset. -/
def RequestInit.new : RequestInit := {}

/-- A request (http.rs lines 37-41). -/
structure Request where
  options : RequestInit
  headers : Headers
  url : String
deriving DecidableEq, Repr

/-- Creates a new request with a url (http.rs lines 45-51). -/
def Request.new (url : String) : Request :=
  { options := RequestInit.new, headers := Headers.new, url := url }

/-- Sets the body (http.rs lines 54-57). -/
def Request.body (self : Request) (body : JsValue) : Request :=
  { self with options := { self.options with body := Option.some body } }

/-- Sets the request cache (http.rs lines 60-63). -/
def Request.cache (self : Request) (cache : RequestCache) : Request :=
  { self with options := { self.options with cache := Option.some cache } }

/-- Sets the request credentials (http.rs lines 66-69). -/
def Request.credentials (self : Request) (credentials : RequestCredentials) : Request :=
  { self with options := { self.options with credentials := Option.some credentials } }

/-- Sets a header (http.rs lines 72-75): delegates to the host collection
and panics (`.expect("set header")`) when the host rejects the pair. -/
def Request.header (self : Request) (key value : String) : PanicOr Request :=
  match self.headers.set key value with
  | .ok hs => .ok { self with headers := hs }
  | .error _ => .panicked "set header"

/-- Sets the request integrity (http.rs lines 78-81). -/
def Request.integrity (self : Request) (integrity : String) : Request :=
  { self with options := { self.options with integrity := Option.some integrity } }

/-- Sets the request method (http.rs lines 84-87): stores the method's
display string in the options aggregate. -/
def Request.method (self : Request) (method : Method) : Request :=
  { self with options := { self.options with method := Option.some method.toString } }

/-- Sets the request mode (http.rs lines 90-93). -/
def Request.mode (self : Request) (mode : RequestMode) : Request :=
  { self with options := { self.options with mode := Option.some mode } }

/-- Sets the observer callback (http.rs lines 96-99). -/
def Request.observe (self : Request) (observe : ObserverCallback) : Request :=
  { self with options := { self.options with observe := Option.some observe } }

/-- Sets the request redirect (http.rs lines 102-105). -/
def Request.redirect (self : Request) (redirect : RequestRedirect) : Request :=
  { self with options := { self.options with redirect := Option.some redirect } }

/-- Sets the request referrer (http.rs lines 108-111). -/
def Request.referrer (self : Request) (referrer : String) : Request :=
  { self with options := { self.options with referrer := Option.some referrer } }

/-- Sets the request referrer policy (http.rs lines 114-117). -/
def Request.referrer_policy (self : Request) (referrerPolicy : ReferrerPolicy) : Request :=
  { self with options := { self.options with referrerPolicy := Option.some referrerPolicy } }

/-- Sets the request abort signal (http.rs lines 120-123). -/
def Request.abort_signal (self : Request) (signal : Option AbortSignal) : Request :=
  { self with options := { self.options with signal := Option.some signal } }

/-- The host-level request descriptor built by
`web_sys::Request::new_with_str_and_init` (http.rs line 129). -/
structure HostRequest where
  url : String
  init : RequestInit
deriving DecidableEq, Repr

/-- The host browsing environment seen by `Request::send`: the global
window lookup, the descriptor constructor (which may reject a malformed
descriptor), and the outcome of awaiting the fetch promise (resolution
with a host value, or rejection with a host error value). -/
structure FetchHost where
  window : Option Window
  newRequestWithStrAndInit : String → RequestInit → Except JsValue HostRequest
  fetchWithRequest : Window → HostRequest → Except JsValue JsValue

/-- The options aggregate after `send`'s first line merges the accumulated
headers into it (http.rs line 127). -/
def Request.finalOptions (self : Request) : RequestInit :=
  { self.options with headers := Option.some self.headers }

/-- The finalized request descriptor `send` hands to the host: the target
url together with the merged options aggregate. -/
def Request.finalized (self : Request) : String × RequestInit :=
  (self.url, self.finalOptions)

/-- The response of a request (http.rs lines 169-171). -/
structure Response where
  response : WebResponse
deriving DecidableEq, Repr

/-- Executes the request (http.rs lines 126-140): merge headers, build the
host descriptor (error out via `js_to_error` if rejected), look up the
global window (`window().unwrap()` — panics when absent), await the fetch
(error out via `js_to_error` on rejection), and downcast the resolved
value to a host response (a distinct error when the downcast fails). -/
def Request.send (self : Request) (host : FetchHost) : PanicOr (Except Error Response) :=
  match host.newRequestWithStrAndInit self.url self.finalOptions with
  | .error e => .ok (.error (js_to_error e))
  | .ok request =>
    match host.window with
    | Option.none => .panicked "unwrap on None"
    | Option.some w =>
      match host.fetchWithRequest w request with
      | .error e => .ok (.error (js_to_error e))
      | .ok response =>
        match response with
        | .jsResponse resp => .ok (.ok ⟨resp⟩)
        | _ => .ok (.error (.other "cannot convert to Response"))

/-- Creates a new GET request with url (http.rs lines 143-145). -/
def Request.get (url : String) : Request :=
  (Request.new url).method .GET

/-- Creates a new POST request with url (http.rs lines 148-150). -/
def Request.post (url : String) : Request :=
  (Request.new url).method .POST

/-- Creates a new PUT request with url (http.rs lines 153-155). -/
def Request.put (url : String) : Request :=
  (Request.new url).method .PUT

/-- Creates a new DELETE request with url (http.rs lines 158-160). -/
def Request.delete (url : String) : Request :=
  (Request.new url).method .DELETE

/-- Creates a new PATCH request with url (http.rs lines 163-165). -/
def Request.patch (url : String) : Request :=
  (Request.new url).method .PATCH

/-- Gets the url (http.rs lines 175-177). -/
def Response.url (self : Response) : String := self.response.url

/-- Whether the request was redirected (http.rs lines 180-182). -/
def Response.redirected (self : Response) : Bool := self.response.redirected

/-- Gets the status (http.rs lines 185-187). -/
def Response.status (self : Response) : Nat := self.response.status

/-- Whether the response was ok (http.rs lines 190-192): delegated to the
host accessor. -/
def Response.ok (self : Response) : Bool := self.response.ok

/-- Gets the status text (http.rs lines 195-197). -/
def Response.status_text (self : Response) : String := self.response.statusText

/-- Gets the headers (http.rs lines 200-202). -/
def Response.headers (self : Response) : Headers := self.response.headers

/-- Whether the body was used (http.rs lines 205-207). -/
def Response.body_used (self : Response) : Bool := self.response.bodyUsed

/-- Gets the body (http.rs lines 210-212). -/
def Response.body (self : Response) : Option ReadableStream := self.response.body

/-- Gets the raw host response object (http.rs lines 215-217). -/
def Response.as_raw (self : Response) : WebResponse := self.response

/-- The host side of one body-decode operation: the outcome of creating
the decode promise (the host throws, e.g., when it refuses to start the
decode), and on creation success the outcome of awaiting it (rejection
with a host error value, or resolution with a host value). -/
structure BodyHost where
  textStep : Except JsValue (Except JsValue JsValue)
  jsonStep : Except JsValue (Except JsValue JsValue)
  formDataStep : Except JsValue (Except JsValue JsValue)
deriving Repr

/-- Gets the form data (http.rs lines 220-224): both the promise-creation
failure and the await rejection are returned as errors via `js_to_error`. -/
def Response.form_data (self : Response) (host : BodyHost) : PanicOr (Except Error FormData) :=
  match host.formDataStep with
  | .error e => .ok (.error (js_to_error e))
  | .ok (.error e) => .ok (.error (js_to_error e))
  | .ok (.ok v) => .ok (.ok (FormData.fromJs v))

/-- Gets and parses the json (http.rs lines 227-232): promise-creation
failure and await rejection become host errors via `js_to_error`; the
resolved generic value is then deserialized into the caller's type by
`into_serde` (abstracted as the `deser` function of the serde
implementation of `T`), whose failure the `?` converts into the distinct
serde error variant. -/
def Response.json {T : Type} (self : Response) (deser : JsValue → Except String T)
    (host : BodyHost) : PanicOr (Except Error T) :=
  match host.jsonStep with
  | .error e => .ok (.error (js_to_error e))
  | .ok (.error e) => .ok (.error (js_to_error e))
  | .ok (.ok v) =>
    match deser v with
    | .error msg => .ok (.error (.serdeError msg))
    | .ok t => .ok (.ok t)

/-- Gets the response text (http.rs lines 235-240): the promise creation
is unwrapped (`self.response.text().unwrap()` — panics when the host
throws); the await rejection becomes an error via `js_to_error`; the
resolved value is coerced to a string. -/
def Response.text (self : Response) (host : BodyHost) : PanicOr (Except Error String) :=
  match host.textStep with
  | .error _ => .panicked "unwrap on Err"
  | .ok (.error e) => .ok (.error (js_to_error e))
  | .ok (.ok v) => .ok (.ok (jsStringFrom v))

/-- A concrete host response used to instantiate the theorems. -/
def demoWebResponse : WebResponse :=
  { url := "https://api.example/items", redirected := false, status := 201,
    statusText := "Created", headers := Headers.new, bodyUsed := false,
    body := Option.some ⟨1⟩ }

/-- A concrete host environment whose fetch resolves with a response
object. -/
def demoHost : FetchHost :=
  { window := Option.some ⟨0⟩,
    newRequestWithStrAndInit := fun u i => .ok ⟨u, i⟩,
    fetchWithRequest := fun _ _ => .ok (.jsResponse demoWebResponse) }

/-- A concrete host environment whose fetch rejects (network failure). -/
def rejectingHost : FetchHost :=
  { window := Option.some ⟨0⟩,
    newRequestWithStrAndInit := fun u i => .ok ⟨u, i⟩,
    fetchWithRequest := fun _ _ => .error (.str "NetworkError") }

/-- A concrete host environment whose fetch resolves with a value that is
not a response object. -/
def nonResponseHost : FetchHost :=
  { window := Option.some ⟨0⟩,
    newRequestWithStrAndInit := fun u i => .ok ⟨u, i⟩,
    fetchWithRequest := fun _ _ => .ok (.str "not a response") }

/-- A concrete host environment where the global window lookup fails. -/
def noWindowHost : FetchHost :=
  { window := Option.none,
    newRequestWithStrAndInit := fun u i => .ok ⟨u, i⟩,
    fetchWithRequest := fun _ _ => .error (.str "unreachable") }

/-- A concrete body-decode host whose promise creation throws for every
operation. -/
def badTextHost : BodyHost :=
  { textStep := .error (.str "TypeError"),
    jsonStep := .error (.str "TypeError"),
    formDataStep := .error (.str "TypeError") }

/-- A concrete body-decode host mirroring a consumed body: promise
creation succeeds and the promise rejects, as `body_used` predicts. -/
def consumedBodyHost : BodyHost :=
  { textStep := .ok (.error (.str "BodyConsumed")),
    jsonStep := .ok (.error (.str "BodyConsumed")),
    formDataStep := .ok (.error (.str "BodyConsumed")) }

/-- A concrete body-decode host whose decode resolves with a string
value. -/
def mismatchJsonHost : BodyHost :=
  { textStep := .ok (.ok (.str "oops")),
    jsonStep := .ok (.ok (.str "oops")),
    formDataStep := .ok (.ok (.str "oops")) }

/-- A concrete serde deserializer for `Nat`: accepts a non-negative host
number and rejects every other shape, as `into_serde` does for a numeric
target type. -/
def demoDeser : JsValue → Except String Nat
  | .num n => if 0 ≤ n then .ok n.toNat else .error "invalid value: negative"
  | _ => .error "invalid type: expected number"

/-- After removing every entry with a key and appending that key with a
new value, looking the key up finds the new value. -/
theorem headerFind_set (l : List (String × String)) (key v : String) :
    headerFind? key (headerRemove key l ++ [(key, v)]) = Option.some v := by
  induction l with
  | nil => simp [headerRemove, headerFind?]
  | cons e es ih =>
    by_cases h : e.1 = key
    · simp [headerRemove, h, ih]
    · simp [headerRemove, h, headerFind?, ih]

/-- Setting a header commutes with any update that only touches the
options aggregate: `header` reads and writes only the header collection. -/
theorem header_setter_comm (r : Request) (k v : String) (f : RequestInit → RequestInit) :
    Request.header { r with options := f r.options } k v
      = (r.header k v).map fun q => { q with options := f q.options } := by
  by_cases h : (validHeaderName k && validHeaderValue v) = true
  · simp [Request.header, Headers.set, h, PanicOr.map]
  · simp [Request.header, Headers.set, h, PanicOr.map]

/-- Two requests with the same finalized descriptor behave identically at
`send` against every host. -/
theorem send_congr (r1 r2 : Request) (h : r1.finalized = r2.finalized)
    (host : FetchHost) : r1.send host = r2.send host := by
  have hu : r1.url = r2.url := congrArg Prod.fst h
  have ho : r1.finalOptions = r2.finalOptions := congrArg Prod.snd h
  simp only [Request.send]
  rw [hu, ho]

/-- Claim C1: with the global window present, `send` returns a Result: a
host rejection (of the descriptor or of the fetch) is converted by
`js_to_error` and returned as Err; a resolved value is downcast to the
host response type, a failed downcast yields the distinct unexpected-type
error, and a successful one yields Ok; every Ok Response comes from a
successful, type-checked downcast of the host's resolved value. -/
theorem send_downcast_contract (host : FetchHost) (w : Window) (r : Request)
    (hw : host.window = Option.some w) :
    (∀ e, host.newRequestWithStrAndInit r.url r.finalOptions = .error e →
        r.send host = .ok (.error (js_to_error e)))
  ∧ (∀ req e, host.newRequestWithStrAndInit r.url r.finalOptions = .ok req →
        host.fetchWithRequest w req = .error e →
        r.send host = .ok (.error (js_to_error e)))
  ∧ (∀ req resp, host.newRequestWithStrAndInit r.url r.finalOptions = .ok req →
        host.fetchWithRequest w req = .ok (.jsResponse resp) →
        r.send host = .ok (.ok ⟨resp⟩))
  ∧ (∀ req v, host.newRequestWithStrAndInit r.url r.finalOptions = .ok req →
        host.fetchWithRequest w req = .ok v →
        (∀ resp, v ≠ JsValue.jsResponse resp) →
        r.send host = .ok (.error (.other "cannot convert to Response")))
  ∧ (∀ resp, r.send host = .ok (.ok resp) →
        ∃ req, host.newRequestWithStrAndInit r.url r.finalOptions = .ok req ∧
          host.fetchWithRequest w req = .ok (.jsResponse resp.response)) := by
  refine ⟨?_, ?_, ?_, ?_, ?_⟩
  · intro e he
    simp [Request.send, he]
  · intro req e h1 h2
    simp [Request.send, h1, hw, h2]
  · intro req resp h1 h2
    simp [Request.send, h1, hw, h2]
  · intro req v h1 h2 h3
    cases v with
    | str s => simp [Request.send, h1, hw, h2]
    | num n => simp [Request.send, h1, hw, h2]
    | objVal n => simp [Request.send, h1, hw, h2]
    | jsResponse resp => exact absurd rfl (h3 resp)
  · intro resp hres
    obtain ⟨wr⟩ := resp
    cases hnr : host.newRequestWithStrAndInit r.url r.finalOptions with
    | error e => simp [Request.send, hnr] at hres
    | ok req =>
      cases hf : host.fetchWithRequest w req with
      | error e => simp [Request.send, hnr, hw, hf] at hres
      | ok v =>
        refine ⟨req, rfl, ?_⟩
        rw [hf]
        cases v with
        | str s => simp [Request.send, hnr, hw, hf] at hres
        | num n => simp [Request.send, hnr, hw, hf] at hres
        | objVal n => simp [Request.send, hnr, hw, hf] at hres
        | jsResponse q =>
          simp [Request.send, hnr, hw, hf] at hres
          simp [hres]

/-- Witness for C1 at a concrete host and request: the resolved response
object is returned as Ok. -/
theorem send_downcast_contract_witness :
    (Request.get "https://api.example/items").send demoHost
      = .ok (.ok ⟨demoWebResponse⟩) :=
  (send_downcast_contract demoHost ⟨0⟩ (Request.get "https://api.example/items") rfl).2.2.1
    ⟨"https://api.example/items", (Request.get "https://api.example/items").finalOptions⟩
    demoWebResponse rfl rfl

/-- Counterexample to C2 as stated: in a host environment where the global
context lookup fails, `send` panics (the `unwrap` on `window()`), instead
of returning an error. -/
theorem send_window_lookup_counterexample :
    noWindowHost.window = Option.none
      ∧ (Request.get "https://api.example/items").send noWindowHost
          = PanicOr.panicked "unwrap on None" :=
  ⟨rfl, rfl⟩

/-- Claim C2 (amended): with the global window present, a request whose
target cannot be reached — the host rejects the descriptor as malformed or
rejects the fetch — makes `send` return an error, never panic, and never
produce a Response; a failed global context lookup instead panics. -/
theorem send_unreachable_returns_error (host : FetchHost) (w : Window) (r : Request)
    (hw : host.window = Option.some w) :
    (∀ e, host.newRequestWithStrAndInit r.url r.finalOptions = .error e →
        r.send host = .ok (.error (js_to_error e)))
  ∧ (∀ req e, host.newRequestWithStrAndInit r.url r.finalOptions = .ok req →
        host.fetchWithRequest w req = .error e →
        r.send host = .ok (.error (js_to_error e))) := by
  refine ⟨?_, ?_⟩
  · intro e he
    simp [Request.send, he]
  · intro req e h1 h2
    simp [Request.send, h1, hw, h2]

/-- Witness for the amended C2 at a concrete rejecting host: the network
failure comes back as an error value, not a panic and not a Response. -/
theorem send_unreachable_returns_error_witness :
    (Request.get "https://api.example/items").send rejectingHost
      = .ok (.error (js_to_error (.str "NetworkError"))) :=
  (send_unreachable_returns_error rejectingHost ⟨0⟩
      (Request.get "https://api.example/items") rfl).2
    ⟨"https://api.example/items", (Request.get "https://api.example/items").finalOptions⟩
    (.str "NetworkError") rfl rfl

/-- Counterexample to C3 as stated: when the host-side `text()` promise
creation fails (the case the claim itself names), the wrapper panics (the
`unwrap` on http.rs line 236) instead of returning a result. -/
theorem text_promise_failure_panics :
    Response.text ⟨demoWebResponse⟩ badTextHost = PanicOr.panicked "unwrap on Err" :=
  rfl

/-- Claim C3 (amended): `form_data` and `json` always return a result
explicitly without panicking; `text` panics if the host-side promise
creation fails, and otherwise returns a result explicitly without
panicking — in particular a second `text()` call, whose host outcome (an
error or an empty string, as `body_used` predicts) is delegated to the
host, is returned as that outcome with no panic. -/
theorem fallible_ops_explicit_results {T : Type} (deser : JsValue → Except String T)
    (resp : Response) (host : BodyHost) (p : Except JsValue JsValue)
    (htext : host.textStep = .ok p) :
    (∀ e, p = .error e → resp.text host = .ok (.error (js_to_error e)))
  ∧ (∀ v, p = .ok v → resp.text host = .ok (.ok (jsStringFrom v)))
  ∧ (∃ res, resp.form_data host = .ok res)
  ∧ (∃ res, resp.json deser host = .ok res) := by
  refine ⟨?_, ?_, ?_, ?_⟩
  · intro e he
    simp [Response.text, htext, he]
  · intro v hv
    simp [Response.text, htext, hv]
  · cases hfd : host.formDataStep with
    | error e => exact ⟨.error (js_to_error e), by simp [Response.form_data, hfd]⟩
    | ok aw =>
      cases aw with
      | error e => exact ⟨.error (js_to_error e), by simp [Response.form_data, hfd]⟩
      | ok v => exact ⟨.ok (FormData.fromJs v), by simp [Response.form_data, hfd]⟩
  · cases hj : host.jsonStep with
    | error e => exact ⟨.error (js_to_error e), by simp [Response.json, hj]⟩
    | ok aw =>
      cases aw with
      | error e => exact ⟨.error (js_to_error e), by simp [Response.json, hj]⟩
      | ok v =>
        cases hd : deser v with
        | error msg => exact ⟨.error (.serdeError msg), by simp [Response.json, hj, hd]⟩
        | ok t => exact ⟨.ok t, by simp [Response.json, hj, hd]⟩

/-- Witness for the amended C3 at a concrete consumed-body host: the
second read's host rejection is returned as an error, with no panic. -/
theorem fallible_ops_explicit_results_witness :
    Response.text ⟨demoWebResponse⟩ consumedBodyHost
      = .ok (.error (js_to_error (.str "BodyConsumed"))) :=
  (fallible_ops_explicit_results demoDeser ⟨demoWebResponse⟩ consumedBodyHost
      (.error (.str "BodyConsumed")) rfl).1
    (.str "BodyConsumed") rfl

/-- Claim C4: when the host decode resolves but the decoded value's shape
does not match the caller's type, `json` returns the serde
deserialization error — a variant distinct from the host-level error —
without panicking and without returning any value of the target type. -/
theorem json_shape_mismatch_error {T : Type} (deser : JsValue → Except String T)
    (resp : Response) (host : BodyHost) (v : JsValue) (msg : String)
    (hstep : host.jsonStep = .ok (.ok v))
    (hdeser : deser v = .error msg) :
    resp.json deser host = .ok (.error (.serdeError msg))
  ∧ (∀ e, Error.serdeError msg ≠ Error.jsError e)
  ∧ (∀ t : T, resp.json deser host ≠ .ok (.ok t)) := by
  refine ⟨?_, ?_, ?_⟩
  · simp [Response.json, hstep, hdeser]
  · intro e h
    exact Error.noConfusion h
  · intro t h
    simp [Response.json, hstep, hdeser] at h

/-- Witness for C4 at a concrete host and deserializer: a string value
decoded where a number is expected yields the serde error. -/
theorem json_shape_mismatch_error_witness :
    Response.json ⟨demoWebResponse⟩ demoDeser mismatchJsonHost
      = .ok (.error (.serdeError "invalid type: expected number")) :=
  (json_shape_mismatch_error demoDeser ⟨demoWebResponse⟩ mismatchJsonHost
    (.str "oops") "invalid type: expected number" rfl rfl).1

/-- Claim C5: each lower-case convenience constructor equals
`Request::new(url).method(M)` for its method M, and the produced request
targets `url` with an empty header set, no body, and the method option set
to M's serialization. -/
theorem convenience_constructors_spec (url : String) :
    (Request.get url = (Request.new url).method .GET
      ∧ (Request.get url).url = url ∧ (Request.get url).headers = Headers.new
      ∧ (Request.get url).options.body = Option.none
      ∧ (Request.get url).options.method = Option.some (Method.toString .GET))
  ∧ (Request.post url = (Request.new url).method .POST
      ∧ (Request.post url).url = url ∧ (Request.post url).headers = Headers.new
      ∧ (Request.post url).options.body = Option.none
      ∧ (Request.post url).options.method = Option.some (Method.toString .POST))
  ∧ (Request.put url = (Request.new url).method .PUT
      ∧ (Request.put url).url = url ∧ (Request.put url).headers = Headers.new
      ∧ (Request.put url).options.body = Option.none
      ∧ (Request.put url).options.method = Option.some (Method.toString .PUT))
  ∧ (Request.delete url = (Request.new url).method .DELETE
      ∧ (Request.delete url).url = url ∧ (Request.delete url).headers = Headers.new
      ∧ (Request.delete url).options.body = Option.none
      ∧ (Request.delete url).options.method = Option.some (Method.toString .DELETE))
  ∧ (Request.patch url = (Request.new url).method .PATCH
      ∧ (Request.patch url).url = url ∧ (Request.patch url).headers = Headers.new
      ∧ (Request.patch url).options.body = Option.none
      ∧ (Request.patch url).options.method = Option.some (Method.toString .PATCH)) :=
  ⟨⟨rfl, rfl, rfl, rfl, rfl⟩, ⟨rfl, rfl, rfl, rfl, rfl⟩, ⟨rfl, rfl, rfl, rfl, rfl⟩,
    ⟨rfl, rfl, rfl, rfl, rfl⟩, ⟨rfl, rfl, rfl, rfl, rfl⟩⟩

/-- Claim C6: when the host accepts the pair, `header(key, value)` inserts
or overwrites the header (reading the key back case-insensitively yields
the value) and changes nothing else; when the host rejects the pair, the
call aborts the whole operation (the `expect` panic), instead of
returning a recoverable error. -/
theorem header_insert_or_abort (r : Request) (k v : String) :
    ((validHeaderName k && validHeaderValue v) = true →
      ∃ r2, r.header k v = .ok r2 ∧ r2.headers.get k = Option.some v
        ∧ r2.url = r.url ∧ r2.options = r.options)
  ∧ ((validHeaderName k && validHeaderValue v) = false →
      r.header k v = .panicked "set header") := by
  refine ⟨?_, ?_⟩
  · intro h
    refine ⟨{ r with headers :=
        ⟨headerRemove (lowerStr k) r.headers.entries ++ [(lowerStr k, v)]⟩ }, ?_, ?_, rfl, rfl⟩
    · simp [Request.header, Headers.set, h]
    · simp [Headers.get, headerFind_set]
  · intro h
    simp [Request.header, Headers.set, h]

/-- Witness for C6 at a concrete request and a host-accepted pair. -/
theorem header_insert_or_abort_witness :
    ∃ r2, (Request.new "https://api.example/items").header "Content-Type" "application/json"
          = .ok r2
      ∧ r2.headers.get "Content-Type" = Option.some "application/json"
      ∧ r2.url = (Request.new "https://api.example/items").url
      ∧ r2.options = (Request.new "https://api.example/items").options :=
  (header_insert_or_abort (Request.new "https://api.example/items")
    "Content-Type" "application/json").1 (by decide)

/-- Claim C7: `Method` is the closed enumeration GET, POST, PATCH, DELETE,
PUT, and each value displays as exactly its uppercase name. -/
theorem method_display_spec :
    (∀ m : Method, m = .GET ∨ m = .POST ∨ m = .PATCH ∨ m = .DELETE ∨ m = .PUT)
  ∧ Method.toString .GET = "GET" ∧ Method.toString .POST = "POST"
  ∧ Method.toString .PATCH = "PATCH" ∧ Method.toString .DELETE = "DELETE"
  ∧ Method.toString .PUT = "PUT" :=
  ⟨fun m => by cases m <;> simp, rfl, rfl, rfl, rfl, rfl⟩

/-- Claim C8: `ok()` — delegated to the host double, which reports ok per
the Fetch standard — is true iff `status()` lies in the range 200..=299. -/
theorem ok_iff_status_2xx (resp : Response) :
    resp.ok = true ↔ 200 ≤ resp.status ∧ resp.status ≤ 299 := by
  simp [Response.ok, WebResponse.ok, Response.status]

/-- Claim C9: a repeated `method` call overwrites the earlier value — the
doubly-set request has the same finalized descriptor, headers, and url as
the singly-set one, and behaves identically at `send` against every
host. -/
theorem method_last_write_wins (r : Request) (m1 m2 : Method) :
    ((r.method m1).method m2).finalized = (r.method m2).finalized
  ∧ ((r.method m1).method m2).headers = (r.method m2).headers
  ∧ ((r.method m1).method m2).url = (r.method m2).url
  ∧ ∀ host : FetchHost, ((r.method m1).method m2).send host = (r.method m2).send host :=
  ⟨rfl, rfl, rfl, fun host => send_congr _ _ rfl host⟩

/-- Claim C10: `header` commutes with every non-header option setter:
headers are stored apart from the options aggregate and merged only at
`send`, so applying the two calls in either order yields the same request
(hence the same finalized descriptor). -/
theorem header_commutes_with_setters (r : Request) (k v : String) (b : JsValue)
    (c : RequestCache) (cr : RequestCredentials) (i : String) (m : RequestMode)
    (ob : ObserverCallback) (rd : RequestRedirect) (rf : String) (rp : ReferrerPolicy)
    (sg : Option AbortSignal) (me : Method) :
    ((r.body b).header k v = (r.header k v).map fun q => q.body b)
  ∧ ((r.cache c).header k v = (r.header k v).map fun q => q.cache c)
  ∧ ((r.credentials cr).header k v = (r.header k v).map fun q => q.credentials cr)
  ∧ ((r.integrity i).header k v = (r.header k v).map fun q => q.integrity i)
  ∧ ((r.mode m).header k v = (r.header k v).map fun q => q.mode m)
  ∧ ((r.observe ob).header k v = (r.header k v).map fun q => q.observe ob)
  ∧ ((r.redirect rd).header k v = (r.header k v).map fun q => q.redirect rd)
  ∧ ((r.referrer rf).header k v = (r.header k v).map fun q => q.referrer rf)
  ∧ ((r.referrer_policy rp).header k v = (r.header k v).map fun q => q.referrer_policy rp)
  ∧ ((r.abort_signal sg).header k v = (r.header k v).map fun q => q.abort_signal sg)
  ∧ ((r.method me).header k v = (r.header k v).map fun q => q.method me) :=
  ⟨header_setter_comm r k v (fun o => { o with body := Option.some b }),
    header_setter_comm r k v (fun o => { o with cache := Option.some c }),
    header_setter_comm r k v (fun o => { o with credentials := Option.some cr }),
    header_setter_comm r k v (fun o => { o with integrity := Option.some i }),
    header_setter_comm r k v (fun o => { o with mode := Option.some m }),
    header_setter_comm r k v (fun o => { o with observe := Option.some ob }),
    header_setter_comm r k v (fun o => { o with redirect := Option.some rd }),
    header_setter_comm r k v (fun o => { o with referrer := Option.some rf }),
    header_setter_comm r k v (fun o => { o with referrerPolicy := Option.some rp }),
    header_setter_comm r k v (fun o => { o with signal := Option.some sg }),
    header_setter_comm r k v (fun o => { o with method := Option.some me.toString })⟩

end Reqwasm
